import Mathlib

/-!
Verification of the PCprox RFID reader protocol client (PCprox.py).

Bytes are modelled as `Nat` (with `< 256` hypotheses where the Python code
relies on byte-ness), 8-byte commands and replies as `List Nat`, and the
hex strings manipulated by the decoding helpers as `List Char`.

The USB transport is modelled by a mock (`Mock`) holding a stream of
replies (one per `exchange_bytes` call, indexed by a counter) and a log of
transport events, so that theorems can count and inspect the sends and
exchanges an operation performs.
-/

/-- Hex encoding of one byte sequence, as `binascii.hexlify` produces it:
each byte becomes two lowercase hex characters, high nibble first. -/
def hexlify : List Nat → List Char
  | [] => []
  | x :: xs => Nat.digitChar (x / 16) :: Nat.digitChar (x % 16) :: hexlify xs

/-- The dictionary `hd_dict` of `hex_to_dec` in PCprox.py: lowercase hex
digit characters to their values; any other character is a `KeyError`,
modelled as `none`. -/
def hd_dict (c : Char) : Option Nat :=
  if c = '0' then some 0 else if c = '1' then some 1 else
  if c = '2' then some 2 else if c = '3' then some 3 else
  if c = '4' then some 4 else if c = '5' then some 5 else
  if c = '6' then some 6 else if c = '7' then some 7 else
  if c = '8' then some 8 else if c = '9' then some 9 else
  if c = 'a' then some 10 else if c = 'b' then some 11 else
  if c = 'c' then some 12 else if c = 'd' then some 13 else
  if c = 'e' then some 14 else if c = 'f' then some 15 else none

/-- The loop body of `hex_to_dec`: the input list is the already-reversed
hex string, `i` the current position; each digit contributes
`hd_dict[c] * 16 ^ i`. A `KeyError` (invalid character) yields `none`. -/
def hex_to_dec_core : List Char → Nat → Option Nat
  | [], _ => some 0
  | c :: cs, i =>
    match hd_dict c, hex_to_dec_core cs (i + 1) with
    | some d, some rest => some (d * 16 ^ i + rest)
    | _, _ => none

/-- `hex_to_dec` from PCprox.py: reverse the string, then sum
`digit * 16 ^ position`. -/
def hex_to_dec (s : List Char) : Option Nat :=
  hex_to_dec_core s.reverse 0

/-- The sentinel hex string `'0000000000000001'` that `dec_card_id`
compares against to detect "no card present". -/
def sentinel : List Char :=
  ['0','0','0','0','0','0','0','0','0','0','0','0','0','0','0','1']

/-- `get_card_id`'s pure effect on the 8-byte device reply: the byte order
is reversed (`[::-1]`) before the bytes are returned. -/
def get_card_id (reply : List Nat) : List Nat :=
  reply.reverse

/-- `raw_card_info` from PCprox.py as a function of the device reply:
`binascii.hexlify` of the reversed reply returned by `get_card_id`. -/
def raw_card_info (reply : List Nat) : List Char :=
  hexlify (get_card_id reply)

/-- Result of `dec_card_id`: `absent` models the `None` return, `present n`
the decoded card number, and `err` an uncaught exception (`KeyError` from
`hex_to_dec` on a non-hex character). -/
inductive DecResult where
  | err : DecResult
  | absent : DecResult
  | present : Nat → DecResult
deriving DecidableEq

/-- `dec_card_id` from PCprox.py as a function of the 8-byte device reply:
if the hex string of the reversed reply is the sentinel return `None`
(absent), otherwise decode the hex characters at offsets `[9,14)`. -/
def dec_card_id (reply : List Nat) : DecResult :=
  let hex_id_str := raw_card_info reply
  if hex_id_str = sentinel then .absent
  else
    match hex_to_dec ((hex_id_str.drop 9).take 5) with
    | some n => .present n
    | none => .err

/-- A transport event: `send_bytes` (fire-and-forget) or `exchange_bytes`
(command out, 8-byte reply in). -/
inductive Event where
  | sendEv : List Nat → Event
  | exchangeEv : List Nat → List Nat → Event
deriving DecidableEq

/-- Mock transport: `replies k` is the reply the device gives to the
`k`-th `exchange_bytes` call (counted from 0 by `idx`); `log` records
every transport call in order. -/
structure Mock where
  replies : Nat → List Nat
  idx : Nat
  log : List Event

/-- `exchange_bytes` on the mock: consume the next reply, log the call. -/
def Mock.exchange (m : Mock) (cmd : List Nat) : List Nat × Mock :=
  let r := m.replies m.idx
  (r, { m with idx := m.idx + 1, log := m.log ++ [.exchangeEv cmd r] })

/-- `send_bytes` on the mock: log the call, no reply consumed. -/
def Mock.send (m : Mock) (cmd : List Nat) : Mock :=
  { m with log := m.log ++ [.sendEv cmd] }

def COMMAND_GET_CARD_ID : List Nat := [0x8f, 0, 0, 0, 0, 0, 0, 0]

/-- `COMMAND_GET_CARD_ID_32 % i`: segment index at offset 1. -/
def COMMAND_GET_CARD_ID_32 (i : Nat) : List Nat := [0x8d, i, 0, 0, 0, 0, 0, 0]

def COMMAND_GET_CARD_ID_EXTRA_INFO : List Nat := [0x8e, 0, 0, 0, 0, 0, 0, 0]

/-- `COMMAND_BEEP % c`: control byte at offset 2. -/
def COMMAND_BEEP (c : Nat) : List Nat := [0x8c, 0x03, c, 0, 0, 0, 0, 0]

def COMMAND_CONFIG_FIELD_82 : List Nat := [0x82, 0, 0, 0, 0, 0, 0, 0]

/-- `get_card_id_32` from PCprox.py: four exchanges with segment indices
0,1,2,3, each 8-byte reply reversed individually, concatenated in the
order segment 3, 2, 1, 0. -/
def get_card_id_32 (m : Mock) : List Nat × Mock :=
  let p0 := m.exchange (COMMAND_GET_CARD_ID_32 0)
  let id32_0 := p0.1.reverse
  let p1 := p0.2.exchange (COMMAND_GET_CARD_ID_32 1)
  let id32_1 := p1.1.reverse
  let p2 := p1.2.exchange (COMMAND_GET_CARD_ID_32 2)
  let id32_2 := p2.1.reverse
  let p3 := p2.2.exchange (COMMAND_GET_CARD_ID_32 3)
  let id32_3 := p3.1.reverse
  (id32_3 ++ id32_2 ++ id32_1 ++ id32_0, p3.2)

/-- `beep` from PCprox.py: the assert `1 <= num_beeps <= 7` fires before
any transport call (modelled as `.error` carrying the untouched mock);
otherwise one `exchange_bytes` with the beep command, reply discarded.
`long_beeps` ORs `0x80` into the control byte. -/
def beep (num_beeps : Nat) (long_beeps : Bool) (m : Mock) : Except Mock Mock :=
  if 1 ≤ num_beeps ∧ num_beeps ≤ 7 then
    .ok (m.exchange (COMMAND_BEEP (num_beeps + (if long_beeps then 0x80 else 0)))).2
  else
    .error m

/-- `get_additional_id_info` from PCprox.py: one exchange, then
`struct.unpack` of the first two reply bytes as a little-endian
unsigned 16-bit value. -/
def get_additional_id_info (m : Mock) : Nat × Mock :=
  let p := m.exchange COMMAND_GET_CARD_ID_EXTRA_INFO
  let two := p.1.take 2
  (two.getD 0 0 + 256 * two.getD 1 0, p.2)

/-- `set_led_auto` from PCprox.py: read config field 0x82, mutate the
returned array in place (`old_data[0] = 0`, clear bit 1 of byte 1), then
send the selector command followed by the mutated array. -/
def set_led_auto (m : Mock) : Mock :=
  let p := m.exchange COMMAND_CONFIG_FIELD_82
  let old_data := p.1.set 0 0
  let old_data := old_data.set 1 (old_data.getD 1 0 &&& 0xFD)
  ((p.2.send COMMAND_CONFIG_FIELD_82).send old_data)

/-- `set_led_state` from PCprox.py: read config field 0x82, mutate the
returned array in place (byte 0 := red-bit | green-bit, set bit 1 of
byte 1), then send the selector command followed by the mutated array. -/
def set_led_state (red green : Bool) (m : Mock) : Mock :=
  let p := m.exchange COMMAND_CONFIG_FIELD_82
  let old_data := p.1.set 0 ((if red then 1 else 0) ||| (if green then 2 else 0))
  let old_data := old_data.set 1 (old_data.getD 1 0 ||| 0x02)
  ((p.2.send COMMAND_CONFIG_FIELD_82).send old_data)

/-- Outcome of `wait_until_card`: `out n polls` means it returned card
number `n` after consuming `polls` device replies in total (counting from
stream position 0); `fuelOut` means the given fuel was exhausted while
the loop was still running; `raised` models an uncaught exception from
`dec_card_id`. -/
inductive WaitRes where
  | out : Nat → Nat → WaitRes
  | fuelOut : WaitRes
  | raised : WaitRes
deriving DecidableEq

/-- Outcome of `wait_until_none`: `done polls` means it returned after
consuming `polls` device replies in total. -/
inductive NoneRes where
  | done : Nat → NoneRes
  | fuelOut : NoneRes
  | raised : NoneRes
deriving DecidableEq

/-- `wait_until_card` from PCprox.py over a stream of device replies
(`polls`), starting at stream position `i`, with explicit fuel: loop
`while not card_id` — a `None` (absent) or `0` decode is falsy, so the
loop keeps polling; a nonzero decode is returned. -/
def wait_until_card (polls : Nat → List Nat) : Nat → Nat → WaitRes
  | _, 0 => .fuelOut
  | i, fuel + 1 =>
    match dec_card_id (polls i) with
    | .err => .raised
    | .absent => wait_until_card polls (i + 1) fuel
    | .present n => if n = 0 then wait_until_card polls (i + 1) fuel else .out n (i + 1)

/-- `wait_until_none` from PCprox.py over a stream of device replies:
poll once, then loop `while card_id` — any falsy decode (`None` or `0`)
ends the loop. -/
def wait_until_none (polls : Nat → List Nat) : Nat → Nat → NoneRes
  | _, 0 => .fuelOut
  | i, fuel + 1 =>
    match dec_card_id (polls i) with
    | .err => .raised
    | .absent => .done (i + 1)
    | .present n => if n = 0 then .done (i + 1) else wait_until_none polls (i + 1) fuel

/-- A fixed mock whose four exchange replies are the given segment
replies S0, S1, S2, S3 in request order. -/
def segMock (S0 S1 S2 S3 : List Nat) : Mock :=
  { replies := fun k => [S0, S1, S2, S3].getD k [], idx := 0, log := [] }

/-- A mock that always replies with all-zero bytes, used as a concrete
test transport. -/
def mock0 : Mock :=
  { replies := fun _ => [0, 0, 0, 0, 0, 0, 0, 0], idx := 0, log := [] }

/-- A mock whose config read returns nonzero bytes, used to witness the
LED theorems. -/
def ledMock : Mock :=
  { replies := fun _ => [0xAA, 0x55, 0, 0, 0, 0, 0, 0], idx := 0, log := [] }

/-- A mock whose reply carries the little-endian 16-bit value 0x1234. -/
def infoMock : Mock :=
  { replies := fun _ => [0x34, 0x12, 0, 0, 0, 0, 0, 0], idx := 0, log := [] }

/-- A device reply that decodes to a present card with number 1: its
reversal hex-encodes to `0000000000000100`, whose [9,14) slice is
`00001`. -/
def presentReply : List Nat := [0, 1, 0, 0, 0, 0, 0, 0]

/-- The device reply whose reversal hex-encodes to the sentinel: decodes
to absent. -/
def absentReply : List Nat := [1, 0, 0, 0, 0, 0, 0, 0]

/-- A device reply that decodes to a present card with number 0: its
reversal hex-encodes to `ff00000000000000`, whose [9,14) slice is
`00000`. -/
def zeroCardReply : List Nat := [0, 0, 0, 0, 0, 0, 0, 0xFF]

/-- Poll stream for the C8 counterexample: the card is present for
exactly the first poll (N = 1), absent thereafter. -/
def c8polls : Nat → List Nat :=
  fun i => if i = 0 then presentReply else absentReply

/-- Poll stream for the C8 witness: the card is present for the first
two polls (N = 2), absent thereafter. -/
def c8wpolls : Nat → List Nat :=
  fun i => if i < 2 then presentReply else absentReply

/-- Poll stream on which every poll decodes to a present card whose
number is 0. -/
def c10polls : Nat → List Nat :=
  fun _ => zeroCardReply

/-- The data payload `set_led_auto` builds by in-place mutation of the
config bytes `R` read from field 0x82. -/
def led_auto_payload (R : List Nat) : List Nat :=
  let d := R.set 0 0
  d.set 1 (d.getD 1 0 &&& 0xFD)

/-- The data payload `set_led_state` builds by in-place mutation of the
config bytes `R` read from field 0x82. -/
def led_state_payload (red green : Bool) (R : List Nat) : List Nat :=
  let d := R.set 0 ((if red then 1 else 0) ||| (if green then 2 else 0))
  d.set 1 (d.getD 1 0 ||| 0x02)

/-- Value of one hexadecimal digit character, written from the spec's
words ("parse as a hexadecimal integer"); junk characters map to 0 and
are excluded by the hypotheses of every theorem using it. -/
def specHexDigit (c : Char) : Nat :=
  if c = '0' then 0 else if c = '1' then 1 else
  if c = '2' then 2 else if c = '3' then 3 else
  if c = '4' then 4 else if c = '5' then 5 else
  if c = '6' then 6 else if c = '7' then 7 else
  if c = '8' then 8 else if c = '9' then 9 else
  if c = 'a' then 10 else if c = 'b' then 11 else
  if c = 'c' then 12 else if c = 'd' then 13 else
  if c = 'e' then 14 else if c = 'f' then 15 else 0

/-- Standard most-significant-digit-first parse of a hex string, written
from the spec's words: the reference against which the code's reversed
positional sum `hex_to_dec` is checked. -/
def specHexParse (s : List Char) : Nat :=
  s.foldl (fun a c => 16 * a + specHexDigit c) 0

/-- Least-significant-digit-first positional value, the bridge between
`hex_to_dec_core` (which walks the reversed string) and `specHexParse`. -/
def spLsb : List Char → Nat
  | [] => 0
  | c :: cs => specHexDigit c + 16 * spLsb cs

lemma spLsb_append (t : List Char) (c : Char) :
    spLsb (t ++ [c]) = spLsb t + 16 ^ t.length * specHexDigit c := by
  induction t with
  | nil => simp [spLsb]
  | cons d t ih => simp [spLsb, ih, pow_succ]; ring

lemma foldl_hex (s : List Char) (a : Nat) :
    s.foldl (fun a c => 16 * a + specHexDigit c) a
      = a * 16 ^ s.length + spLsb s.reverse := by
  induction s generalizing a with
  | nil => simp [spLsb]
  | cons c s ih =>
    simp only [List.foldl_cons, List.reverse_cons, List.length_cons, ih,
      spLsb_append, List.length_reverse, pow_succ]
    ring

lemma specHexParse_eq_spLsb (s : List Char) :
    specHexParse s = spLsb s.reverse := by
  simpa [specHexParse] using foldl_hex s 0

lemma hex_to_dec_core_valid (cs : List Char) (i : Nat)
    (h : ∀ c ∈ cs, hd_dict c = some (specHexDigit c)) :
    hex_to_dec_core cs i = some (16 ^ i * spLsb cs) := by
  induction cs generalizing i with
  | nil => simp [hex_to_dec_core, spLsb]
  | cons c cs ih =>
    have hc : hd_dict c = some (specHexDigit c) := h c (List.mem_cons_self c cs)
    have hcs : ∀ d ∈ cs, hd_dict d = some (specHexDigit d) :=
      fun d hd => h d (List.mem_cons_of_mem c hd)
    simp only [hex_to_dec_core, hc, ih (i + 1) hcs]
    congr 1
    simp [spLsb, pow_succ]
    ring

lemma hex_to_dec_valid (s : List Char)
    (h : ∀ c ∈ s, hd_dict c = some (specHexDigit c)) :
    hex_to_dec s = some (specHexParse s) := by
  have hrev : ∀ c ∈ s.reverse, hd_dict c = some (specHexDigit c) := by
    intro c hc
    exact h c (List.mem_reverse.mp hc)
  simp [hex_to_dec, hex_to_dec_core_valid s.reverse 0 hrev, specHexParse_eq_spLsb]

lemma hd_dict_digitChar_fin :
    ∀ n : Fin 16, hd_dict (Nat.digitChar n.1) = some (specHexDigit (Nat.digitChar n.1)) := by
  decide

lemma hd_dict_digitChar (n : Nat) (h : n < 16) :
    hd_dict (Nat.digitChar n) = some (specHexDigit (Nat.digitChar n)) :=
  hd_dict_digitChar_fin ⟨n, h⟩

lemma hexlify_valid (b : List Nat) (hb : ∀ x ∈ b, x < 256) :
    ∀ c ∈ hexlify b, hd_dict c = some (specHexDigit c) := by
  induction b with
  | nil => simp [hexlify]
  | cons x xs ih =>
    intro c hc
    have hx : x < 256 := hb x (List.mem_cons_self x xs)
    have hxs : ∀ y ∈ xs, y < 256 := fun y hy => hb y (List.mem_cons_of_mem x hy)
    simp only [hexlify, List.mem_cons] at hc
    rcases hc with h1 | h2 | h3
    · exact h1 ▸ hd_dict_digitChar (x / 16) (by omega)
    · exact h2 ▸ hd_dict_digitChar (x % 16) (by omega)
    · exact ih hxs c h3

lemma raw_card_info_valid (b : List Nat) (hb : ∀ x ∈ b, x < 256) :
    ∀ c ∈ raw_card_info b, hd_dict c = some (specHexDigit c) := by
  have : ∀ x ∈ b.reverse, x < 256 := fun x hx => hb x (List.mem_reverse.mp hx)
  exact hexlify_valid b.reverse this

lemma slice_valid (b : List Nat) (hb : ∀ x ∈ b, x < 256) :
    ∀ c ∈ ((raw_card_info b).drop 9).take 5, hd_dict c = some (specHexDigit c) := by
  intro c hc
  exact raw_card_info_valid b hb c (List.drop_subset 9 _ (List.take_subset 5 _ hc))

/-- `dec_card_id` on byte-valued input never raises: each non-sentinel
reply decodes through `hex_to_dec` to the reference parse of the hex
characters at offsets [9,14). -/
lemma dec_card_id_not_sentinel (b : List Nat) (hb : ∀ x ∈ b, x < 256)
    (hs : raw_card_info b ≠ sentinel) :
    dec_card_id b = .present (specHexParse (((raw_card_info b).drop 9).take 5)) := by
  unfold dec_card_id
  simp only [hs, if_false]
  rw [hex_to_dec_valid _ (slice_valid b hb)]

/-- C1: the device reply `01 00 00 00 00 00 00 00`, whose reversal
hex-encodes to the sentinel string `0000000000000001`, makes
`dec_card_id` (after `get_card_id`'s reversal) return `None` (absent),
not a card number. -/
theorem sentinel_reply_decodes_absent :
    raw_card_info [1, 0, 0, 0, 0, 0, 0, 0] = sentinel ∧
    dec_card_id [1, 0, 0, 0, 0, 0, 0, 0] = DecResult.absent := by
  decide

/-- C2: every 8-byte reply whose hex encoding is not the sentinel decodes
to "present" with exactly the hexadecimal value of the 5 characters at
string offsets [9,14) of the hex encoding (reference parse
`specHexParse`). -/
theorem non_sentinel_decodes_present (b : List Nat) (h8 : b.length = 8)
    (hb : ∀ x ∈ b, x < 256) (hs : raw_card_info b ≠ sentinel) :
    dec_card_id b
      = DecResult.present (specHexParse (((raw_card_info b).drop 9).take 5)) :=
  dec_card_id_not_sentinel b hb hs

/-- Witness for C2 at the spec's reference vector: device reply equal to
the reversal of `e2 a3 45 12 34 00 00 00`. -/
theorem non_sentinel_decodes_present_witness :
    ([0, 0, 0, 0x34, 0x12, 0x45, 0xa3, 0xe2] : List Nat).length = 8 ∧
    (∀ x ∈ ([0, 0, 0, 0x34, 0x12, 0x45, 0xa3, 0xe2] : List Nat), x < 256) ∧
    raw_card_info [0, 0, 0, 0x34, 0x12, 0x45, 0xa3, 0xe2] ≠ sentinel ∧
    dec_card_id [0, 0, 0, 0x34, 0x12, 0x45, 0xa3, 0xe2]
      = DecResult.present
          (specHexParse (((raw_card_info [0, 0, 0, 0x34, 0x12, 0x45, 0xa3, 0xe2]).drop 9).take 5)) :=
  ⟨by decide, by decide, by decide,
   non_sentinel_decodes_present _ (by decide) (by decide) (by decide)⟩

/-- C7: presence decoding is total on 8-byte byte-valued replies: it
returns absent or a number, never an exception. -/
theorem dec_card_id_total (b : List Nat) (h8 : b.length = 8)
    (hb : ∀ x ∈ b, x < 256) :
    dec_card_id b = DecResult.absent ∨ ∃ n, dec_card_id b = DecResult.present n := by
  by_cases hs : raw_card_info b = sentinel
  · left
    unfold dec_card_id
    simp [hs]
  · right
    exact ⟨_, dec_card_id_not_sentinel b hb hs⟩

/-- Witness for C7 at the all-zero reply. -/
theorem dec_card_id_total_witness :
    ([0, 0, 0, 0, 0, 0, 0, 0] : List Nat).length = 8 ∧
    (∀ x ∈ ([0, 0, 0, 0, 0, 0, 0, 0] : List Nat), x < 256) ∧
    (dec_card_id [0, 0, 0, 0, 0, 0, 0, 0] = DecResult.absent ∨
     ∃ n, dec_card_id [0, 0, 0, 0, 0, 0, 0, 0] = DecResult.present n) :=
  ⟨by decide, by decide, dec_card_id_total _ (by decide) (by decide)⟩

/-- C3: `get_card_id_32` performs four exchanges with segment indices
0,1,2,3 and returns `reverse(S3) ++ reverse(S2) ++ reverse(S1) ++
reverse(S0)` for mock segment replies S0..S3. -/
theorem get_card_id_32_spec (S0 S1 S2 S3 : List Nat) :
    (get_card_id_32 (segMock S0 S1 S2 S3)).1
      = S3.reverse ++ S2.reverse ++ S1.reverse ++ S0.reverse ∧
    (get_card_id_32 (segMock S0 S1 S2 S3)).2.log
      = [Event.exchangeEv (COMMAND_GET_CARD_ID_32 0) S0,
         Event.exchangeEv (COMMAND_GET_CARD_ID_32 1) S1,
         Event.exchangeEv (COMMAND_GET_CARD_ID_32 2) S2,
         Event.exchangeEv (COMMAND_GET_CARD_ID_32 3) S3] :=
  ⟨rfl, rfl⟩

/-- C4: a beep count outside [1,7] fails the argument check with the mock
left untouched (no transport call at all); a count in [1,7] performs
exactly one exchange with the beep command. -/
theorem beep_spec (n : Nat) (long : Bool) (m : Mock) :
    (¬(1 ≤ n ∧ n ≤ 7) → beep n long m = .error m) ∧
    ((1 ≤ n ∧ n ≤ 7) →
      (beep n long m).toOption.map Mock.log
        = some (m.log ++ [Event.exchangeEv
            (COMMAND_BEEP (n + (if long then 0x80 else 0))) (m.replies m.idx)]) ∧
      (beep n long m).toOption.map Mock.idx = some (m.idx + 1)) := by
  constructor
  · intro h
    simp [beep, h]
  · intro h
    simp [beep, h, Mock.exchange, Except.toOption]

/-- Witness for C4: count 0 and count 8 fail with no transport call;
count 3 performs exactly one exchange. -/
theorem beep_spec_witness :
    (¬(1 ≤ 0 ∧ 0 ≤ 7) ∧ ¬(1 ≤ 8 ∧ 8 ≤ 7) ∧ (1 ≤ 3 ∧ 3 ≤ 7)) ∧
    beep 0 false mock0 = .error mock0 ∧
    beep 8 false mock0 = .error mock0 ∧
    (beep 3 false mock0).toOption.map Mock.log
      = some (mock0.log ++ [Event.exchangeEv (COMMAND_BEEP (3 + (if false then 0x80 else 0)))
          (mock0.replies mock0.idx)]) ∧
    (beep 3 false mock0).toOption.map Mock.idx = some (mock0.idx + 1) :=
  ⟨⟨by decide, by decide, by decide⟩,
   (beep_spec 0 false mock0).1 (by decide),
   (beep_spec 8 false mock0).1 (by decide),
   ((beep_spec 3 false mock0).2 (by decide)).1,
   ((beep_spec 3 false mock0).2 (by decide)).2⟩

lemma led_state_payload_cons (a b : Nat) (t : List Nat) :
    led_state_payload true true (a :: b :: t) = 3 :: (b ||| 2) :: t := by
  simp [led_state_payload, List.set]

lemma set_led_auto_log (m : Mock) :
    (set_led_auto m).log
      = m.log ++ [Event.exchangeEv COMMAND_CONFIG_FIELD_82 (m.replies m.idx),
                  Event.sendEv COMMAND_CONFIG_FIELD_82,
                  Event.sendEv (led_auto_payload (m.replies m.idx))] := by
  simp [set_led_auto, Mock.exchange, Mock.send, led_auto_payload]

lemma set_led_state_log (red green : Bool) (m : Mock) :
    (set_led_state red green m).log
      = m.log ++ [Event.exchangeEv COMMAND_CONFIG_FIELD_82 (m.replies m.idx),
                  Event.sendEv COMMAND_CONFIG_FIELD_82,
                  Event.sendEv (led_state_payload red green (m.replies m.idx))] := by
  simp [set_led_state, Mock.exchange, Mock.send, led_state_payload]

/-- Counterexample to C5: on a transport whose config read returns all
zeroes, `set_led_state(true, true)` sends `[3,2,0,0,0,0,0,0]` as the
second send — the mutated copy — which differs from the original
unmutated bytes `[0,0,0,0,0,0,0,0]` the claim says are sent. -/
theorem set_led_sends_mutated_counterexample :
    (set_led_state true true mock0).log
      = [Event.exchangeEv COMMAND_CONFIG_FIELD_82 [0, 0, 0, 0, 0, 0, 0, 0],
         Event.sendEv COMMAND_CONFIG_FIELD_82,
         Event.sendEv [3, 2, 0, 0, 0, 0, 0, 0]] ∧
    Event.sendEv ([3, 2, 0, 0, 0, 0, 0, 0] : List Nat)
      ≠ Event.sendEv ([0, 0, 0, 0, 0, 0, 0, 0] : List Nat) := by
  decide

/-- C5 amended: in both `set_led_auto` and `set_led_state`, the second
transport send transmits the locally mutated copy of the config bytes
read from field 0x82 (bytes 0 and 1 updated in place), not the original
unmutated bytes. -/
theorem set_led_second_send_is_mutated (m : Mock) (red green : Bool)
    (h8 : (m.replies m.idx).length = 8) :
    (set_led_auto m).log
      = m.log ++ [Event.exchangeEv COMMAND_CONFIG_FIELD_82 (m.replies m.idx),
                  Event.sendEv COMMAND_CONFIG_FIELD_82,
                  Event.sendEv (led_auto_payload (m.replies m.idx))] ∧
    (set_led_state red green m).log
      = m.log ++ [Event.exchangeEv COMMAND_CONFIG_FIELD_82 (m.replies m.idx),
                  Event.sendEv COMMAND_CONFIG_FIELD_82,
                  Event.sendEv (led_state_payload red green (m.replies m.idx))] :=
  ⟨set_led_auto_log m, set_led_state_log red green m⟩

/-- Witness for the amended C5 on a concrete mock. -/
theorem set_led_second_send_is_mutated_witness :
    (mock0.replies mock0.idx).length = 8 ∧
    ((set_led_auto mock0).log
      = mock0.log ++ [Event.exchangeEv COMMAND_CONFIG_FIELD_82 (mock0.replies mock0.idx),
                      Event.sendEv COMMAND_CONFIG_FIELD_82,
                      Event.sendEv (led_auto_payload (mock0.replies mock0.idx))] ∧
     (set_led_state true false mock0).log
      = mock0.log ++ [Event.exchangeEv COMMAND_CONFIG_FIELD_82 (mock0.replies mock0.idx),
                      Event.sendEv COMMAND_CONFIG_FIELD_82,
                      Event.sendEv (led_state_payload true false (mock0.replies mock0.idx))]) :=
  ⟨by decide, set_led_second_send_is_mutated mock0 true false (by decide)⟩

/-- C6: whatever the config bytes read back, the data payload of
`set_led_state(true, true)`'s final send has bits 0 and 1 of byte 0 set
(red|green = amber) and bit 1 of byte 1 (manual override) set. -/
theorem set_led_state_amber_override (m : Mock)
    (h8 : (m.replies m.idx).length = 8) :
    ∃ p, (set_led_state true true m).log
        = m.log ++ [Event.exchangeEv COMMAND_CONFIG_FIELD_82 (m.replies m.idx),
                    Event.sendEv COMMAND_CONFIG_FIELD_82,
                    Event.sendEv p] ∧
      Nat.testBit (p.getD 0 0) 0 = true ∧
      Nat.testBit (p.getD 0 0) 1 = true ∧
      Nat.testBit (p.getD 1 0) 1 = true := by
  refine ⟨led_state_payload true true (m.replies m.idx), set_led_state_log true true m, ?_⟩
  rcases hR : m.replies m.idx with _ | ⟨a, _ | ⟨b, t⟩⟩
  · rw [hR] at h8; simp at h8
  · rw [hR] at h8; simp at h8
  · rw [led_state_payload_cons]
    refine ⟨by simp only [List.getD_cons_zero]; decide,
      by simp only [List.getD_cons_zero]; decide, ?_⟩
    simp only [List.getD_cons_succ, List.getD_cons_zero]
    rw [Nat.testBit_or]
    have h2 : Nat.testBit 2 1 = true := by decide
    simp [h2]

/-- Witness for C6 on a mock whose config read returns nonzero bytes. -/
theorem set_led_state_amber_override_witness :
    ((ledMock.replies ledMock.idx).length = 8) ∧
    (∃ p, (set_led_state true true ledMock).log
        = ledMock.log ++ [Event.exchangeEv COMMAND_CONFIG_FIELD_82 (ledMock.replies ledMock.idx),
                          Event.sendEv COMMAND_CONFIG_FIELD_82,
                          Event.sendEv p] ∧
      Nat.testBit (p.getD 0 0) 0 = true ∧
      Nat.testBit (p.getD 0 0) 1 = true ∧
      Nat.testBit (p.getD 1 0) 1 = true) :=
  ⟨by decide, set_led_state_amber_override ledMock (by decide)⟩

/-- C9: `get_additional_id_info` performs exactly one exchange and returns
the little-endian unsigned 16-bit value of the first two reply bytes. -/
theorem get_additional_id_info_spec (m : Mock)
    (h8 : (m.replies m.idx).length = 8)
    (hb : ∀ x ∈ m.replies m.idx, x < 256) :
    (get_additional_id_info m).1
      = (m.replies m.idx).getD 0 0 + 256 * (m.replies m.idx).getD 1 0 ∧
    (get_additional_id_info m).1 < 65536 ∧
    (get_additional_id_info m).2.log
      = m.log ++ [Event.exchangeEv COMMAND_GET_CARD_ID_EXTRA_INFO (m.replies m.idx)] ∧
    (get_additional_id_info m).2.idx = m.idx + 1 := by
  rcases hR : m.replies m.idx with _ | ⟨a, _ | ⟨b, t⟩⟩
  · rw [hR] at h8; simp at h8
  · rw [hR] at h8; simp at h8
  · have ha : a < 256 := hb a (by rw [hR]; exact List.mem_cons_self a (b :: t))
    have hbb : b < 256 := hb b (by rw [hR]; exact List.mem_cons_of_mem a (List.mem_cons_self b t))
    refine ⟨?_, ?_, ?_, ?_⟩
    · simp [get_additional_id_info, Mock.exchange, hR]
    · simp only [get_additional_id_info, Mock.exchange, hR]
      simp [List.take]
      omega
    · simp [get_additional_id_info, Mock.exchange, hR]
    · simp [get_additional_id_info, Mock.exchange]

/-- Witness for C9 on a mock replying `[0x34, 0x12, 0, 0, 0, 0, 0, 0]`:
the value is 0x1234. -/
theorem get_additional_id_info_spec_witness :
    ((infoMock.replies infoMock.idx).length = 8) ∧
    (∀ x ∈ infoMock.replies infoMock.idx, x < 256) ∧
    ((get_additional_id_info infoMock).1
      = (infoMock.replies infoMock.idx).getD 0 0 + 256 * (infoMock.replies infoMock.idx).getD 1 0 ∧
     (get_additional_id_info infoMock).1 < 65536 ∧
     (get_additional_id_info infoMock).2.log
      = infoMock.log ++ [Event.exchangeEv COMMAND_GET_CARD_ID_EXTRA_INFO (infoMock.replies infoMock.idx)] ∧
     (get_additional_id_info infoMock).2.idx = infoMock.idx + 1) :=
  ⟨by decide, by decide, get_additional_id_info_spec infoMock (by decide) (by decide)⟩

/-- Counterexample to C8 at N = 1: `wait_until_card` returns after its
first (and only) presence poll, and `wait_until_none` then consumes one
absence poll, so the pair finishes after 2 polls in total — 1 presence
poll and 1 absence poll — not the claimed N+1 = 2 presence polls plus 1
absence poll (3 polls in total). -/
theorem polling_fencepost_counterexample :
    wait_until_card c8polls 0 5 = WaitRes.out 1 1 ∧
    wait_until_none c8polls 1 5 = NoneRes.done 2 ∧
    NoneRes.done 2 ≠ NoneRes.done 3 := by
  decide

lemma wait_until_none_run (polls : Nat → List Nat) (k : Nat → Nat) (N : Nat)
    (hpres : ∀ i, i < N → dec_card_id (polls i) = .present (k i) ∧ k i ≠ 0)
    (habs : ∀ i, N ≤ i → dec_card_id (polls i) = .absent) :
    ∀ fuel j, j + fuel = N + 1 → j ≤ N → wait_until_none polls j fuel = .done (N + 1) := by
  intro fuel
  induction fuel with
  | zero => intro j hj hjN; omega
  | succ f ih =>
    intro j hj hjN
    by_cases hje : j = N
    · subst hje
      simp [wait_until_none, habs j le_rfl]
    · have hjlt : j < N := by omega
      obtain ⟨hd, hk⟩ := hpres j hjlt
      simp only [wait_until_none, hd]
      rw [if_neg hk]
      exact ih (j + 1) (by omega) (by omega)

/-- C8 amended: against a transport that decodes to "present" with a
nonzero card number for the first N polls and "absent" thereafter,
`wait_until_card` returns after exactly 1 poll (the first presence poll)
and `wait_until_none` then consumes the remaining N-1 presence polls plus
1 absence poll — N presence polls and 1 absence poll in total, N+1
polls overall. -/
theorem polling_fencepost (polls : Nat → List Nat) (k : Nat → Nat) (N : Nat)
    (hN : 1 ≤ N)
    (hpres : ∀ i, i < N → dec_card_id (polls i) = .present (k i) ∧ k i ≠ 0)
    (habs : ∀ i, N ≤ i → dec_card_id (polls i) = .absent) :
    wait_until_card polls 0 1 = WaitRes.out (k 0) 1 ∧
    wait_until_none polls 1 N = NoneRes.done (N + 1) := by
  obtain ⟨hd0, hk0⟩ := hpres 0 hN
  constructor
  · simp [wait_until_card, hd0, hk0]
  · exact wait_until_none_run polls k N hpres habs N 1 (by omega) hN

/-- Witness for the amended C8 at N = 2. -/
theorem polling_fencepost_witness :
    (1 ≤ 2) ∧
    (wait_until_card c8wpolls 0 1 = WaitRes.out 1 1 ∧
     wait_until_none c8wpolls 1 2 = NoneRes.done 3) :=
  ⟨by decide,
   polling_fencepost c8wpolls (fun _ => 1) 2 (by decide)
     (by
       intro i hi
       interval_cases i <;> exact ⟨by decide, by decide⟩)
     (by
       intro i hi
       have hne : ¬ i < 2 := by omega
       simp only [c8wpolls, hne, if_false]
       decide)⟩

lemma wait_until_card_never_zero (fuel : Nat) :
    ∀ (polls : Nat → List Nat) (i m : Nat),
      wait_until_card polls i fuel ≠ WaitRes.out 0 m := by
  induction fuel with
  | zero =>
    intro polls i m
    simp [wait_until_card]
  | succ f ih =>
    intro polls i m
    simp only [wait_until_card]
    rcases hdec : dec_card_id (polls i) with _ | _ | n
    · simp
    · exact ih polls (i + 1) m
    · by_cases hn : n = 0
      · simp only [hn, if_pos rfl]
        exact ih polls (i + 1) m
      · simp only [if_neg hn, ne_eq, WaitRes.out.injEq, not_and]
        intro hc
        exact absurd hc hn

/-- C10: a present card whose decoded number is 0 is indistinguishable
from "no card" at the polling layer: `wait_until_card` keeps polling past
it (and can never return card number 0), while `wait_until_none` returns
immediately after that single poll. -/
theorem zero_card_indistinguishable (polls : Nat → List Nat) (i fuel m : Nat)
    (h : dec_card_id (polls i) = DecResult.present 0) :
    wait_until_card polls i (fuel + 1) = wait_until_card polls (i + 1) fuel ∧
    wait_until_none polls i (fuel + 1) = NoneRes.done (i + 1) ∧
    wait_until_card polls i fuel ≠ WaitRes.out 0 m := by
  refine ⟨?_, ?_, wait_until_card_never_zero fuel polls i m⟩
  · simp [wait_until_card, h]
  · simp [wait_until_none, h]

/-- Witness for C10 on the stream that always reports a card with
number 0. -/
theorem zero_card_indistinguishable_witness :
    dec_card_id (c10polls 0) = DecResult.present 0 ∧
    (wait_until_card c10polls 0 3 = wait_until_card c10polls 1 2 ∧
     wait_until_none c10polls 0 3 = NoneRes.done 1 ∧
     wait_until_card c10polls 0 2 ≠ WaitRes.out 0 7) :=
  ⟨by decide, zero_card_indistinguishable c10polls 0 2 7 (by decide)⟩
